import Mathlib

/-!
Formal model of the client-pool lifecycle and supervision logic of app.py
from the reelnn backend.

The orchestration code is embedded shallowly: Python dicts that preserve
insertion order become association lists, the pyrogram start and stop
operations, the notification collaborator (utils.telegram_logger) and the
storage teardown (mongo close_connections) are external collaborators and
are modelled by outcome parameters, and the cooperative single-threaded
asyncio execution becomes explicit state threading with event traces.
Observable actions (client starts, stops, notifications, storage close)
are recorded as events so that ordering and counting properties can be
stated and proved.
-/

namespace AppModel

/-- Client identifiers are small integers; 0 denotes the primary client. -/
abbrev ClientId := Nat

/-- Client handles are opaque connection objects with start and stop
operations; the orchestrator never inspects them, so a token suffices. -/
abbrev Handle := Nat

/-- Connection parameters (API_ID, API_HASH, BOT_TOKEN) are never inspected
by the orchestration logic itself, so a configuration entry is opaque. -/
abbrev ClientConf := Nat

/-- The handle of the module-level primary client object (app.py line 52). -/
def botHandle : Handle := 100

/-- Failure causes surfaced by collaborators or by the Python runtime. -/
inductive Err
  | typeError
  | runtimeError
  | clientStartError
  | clientStopError
  | cacheError
  deriving DecidableEq, Repr

/-- Observable actions of the orchestrator, recorded in traces. -/
inductive Event
  | primaryStarted
  | secondaryIssued (id : ClientId)
  | secondarySettled (id : ClientId)
  | infoSent
  | errorSent
  | logError
  | storageClosed
  | primaryStopIssued
  | primaryStopSettled
  | stopIssued (id : ClientId)
  | stopSettled (id : ClientId)
  | loopStopped
  deriving DecidableEq, Repr

/-- Number of occurrences of an event in a trace. -/
def countE (tr : List Event) (e : Event) : Nat :=
  (tr.filter (fun x => decide (x = e))).length

/-- Index of the first occurrence of an event in a trace (trace length when
the event is absent). -/
def idxOf : List Event → Event → Nat
  | [], _ => 0
  | a :: tr, e => if a = e then 0 else idxOf tr e + 1

/-- Python dict assignment d[k] = v on an insertion-ordered dict: overwrite
in place when the key is present, append otherwise. -/
def dictSet {α : Type} : List (ClientId × α) → ClientId → α → List (ClientId × α)
  | [], k, v => [(k, v)]
  | (k', v') :: rest, k, v =>
    if k' = k then (k, v) :: rest else (k', v') :: dictSet rest k v

/-- Python dict lookup d.get(k). -/
def dictGet {α : Type} : List (ClientId × α) → ClientId → Option α
  | [], _ => none
  | (k', v') :: rest, k => if k' = k then some v' else dictGet rest k

/-- The keys of a dict, in insertion order. -/
def dictKeys {α : Type} (d : List (ClientId × α)) : List ClientId :=
  d.map Prod.fst

/-- Python dict.update(new): assign every pair of new, left to right. -/
def dictUpdate {α : Type} (d new : List (ClientId × α)) : List (ClientId × α) :=
  new.foldl (fun acc p => dictSet acc p.1 p.2) d

/-- The shared module-level state (state.py): the client pool multi_clients
and the Workload Registry work_loads. -/
structure CoreState where
  multi_clients : List (ClientId × Handle)
  work_loads : List (ClientId × Nat)
  deriving DecidableEq, Repr

/-- The state before any orchestration code has run: both maps empty. -/
def emptyState : CoreState := ⟨[], []⟩

/-- Embedding of start_client (app.py lines 64 to 81).  The parameter
startOutcome models the result of awaiting Client(...).start(), the only
operation inside the try block that can raise (the log call and the dict
assignment cannot).  On success the function writes the workload counter
for its own identifier and returns the (id, handle) pair; the except
clause catches every Exception, logs it, and returns None, leaving the
registry untouched because the raise happens before the assignment. -/
def start_client (client_id : ClientId) (startOutcome : Except Err Handle)
    (wl : List (ClientId × Nat)) :
    List (ClientId × Nat) × Option (ClientId × Handle) :=
  match startOutcome with
  | Except.ok client => (dictSet wl client_id 0, some (client_id, client))
  | Except.error _ => (wl, none)

/-- Result of running a startup phase: the event trace, the sequence of
states observable at suspension points (other tasks can run there), the
state left behind, and the exception escaping the phase, if any. -/
structure RunResult where
  events : List Event
  snapshots : List CoreState
  final : CoreState
  err : Option Err
  deriving DecidableEq, Repr

/-- Result of awaiting the gathered secondary start tasks. -/
structure GatherOut where
  wl : List (ClientId × Nat)
  events : List Event
  results : List (Option (ClientId × Handle))
  wlSnaps : List (List (ClientId × Nat))
  deriving DecidableEq, Repr

/-- The bodies of the secondary start tasks running to completion under
gather (app.py lines 100 to 101).  Each task settles in turn, threading
the shared registry; wlSnaps records the registry right after each task
completes, the points at which other tasks can observe the state. -/
def gatherStarts (outcome : ClientId → Except Err Handle) :
    List ClientId → List (ClientId × Nat) → GatherOut
  | [], wl => ⟨wl, [], [], []⟩
  | i :: rest, wl =>
    let r := start_client i (outcome i) wl
    let g := gatherStarts outcome rest r.1
    ⟨g.wl, Event.secondarySettled i :: g.events, r.2 :: g.results, r.1 :: g.wlSnaps⟩

/-- Embedding of the dict comprehension on app.py line 103, which intends
to drop failed starts.  Python evaluates the for clause first: each element
of the gathered list is unpacked into (client_id, client) before the guard
is tested, so a None element (a failed start) raises TypeError.  Client
objects are truthy, so unpacked pairs always pass the guard. -/
def filterClients : List (Option (ClientId × Handle)) →
    Except Err (List (ClientId × Handle))
  | [] => Except.ok []
  | none :: _ => Except.error Err.typeError
  | some p :: rest =>
    match filterClients rest with
    | Except.ok l => Except.ok (p :: l)
    | Except.error e => Except.error e

/-- The part of initialize_clients after the primary entry has been
inserted (app.py lines 94 to 109), over the list of secondary identifiers.
If there are none, the function logs and returns at once.  Otherwise the
start tasks are all created before any is awaited (fan-out of create_task
on line 100), gather waits for all of them, and the dict comprehension may
raise TypeError (see filterClients); in that case the registry mutations
made by the tasks persist but the pool update on line 104 never runs. -/
def init_secondaries (outcome : ClientId → Except Err Handle)
    (st1 : CoreState) (ids : List ClientId) : RunResult :=
  match ids with
  | [] => ⟨[], [st1], st1, none⟩
  | _ :: _ =>
    let g := gatherStarts outcome ids st1.work_loads
    let events := ids.map Event.secondaryIssued ++ g.events
    let snaps := st1 :: g.wlSnaps.map (fun w => ⟨st1.multi_clients, w⟩)
    match filterClients g.results with
    | Except.error e => ⟨events, snaps, ⟨st1.multi_clients, g.wl⟩, some e⟩
    | Except.ok clients =>
      let stF : CoreState := ⟨dictUpdate st1.multi_clients clients, g.wl⟩
      ⟨events, snaps ++ [stF], stF, none⟩

/-- Embedding of initialize_clients (app.py lines 84 to 109).  The leading
try block only performs dict assignments, which cannot raise, so both of
its branches reduce to the two assignments for identifier 0; then the
secondary entries, every configured pair other than identifier 0, are
handed to init_secondaries. -/
def initialize_clients (config : List (ClientId × ClientConf))
    (outcome : ClientId → Except Err Handle) (st : CoreState) : RunResult :=
  init_secondaries outcome
    ⟨dictSet st.multi_clients 0 botHandle, dictSet st.work_loads 0 0⟩
    ((config.filter (fun p => decide (p.1 ≠ 0))).map Prod.fst)

/-- The secondary identifiers of a configuration, in configuration order. -/
def secIds (config : List (ClientId × ClientConf)) : List ClientId :=
  (config.filter (fun p => decide (p.1 ≠ 0))).map Prod.fst

/-- Embedding of the client-initialization phase of init (app.py lines 113
to 116): await bot.start(), then initialize_clients.  The parameter
primaryStart models the outcome of awaiting bot.start(); on failure init
propagates it and nothing further runs. -/
def init_run (config : List (ClientId × ClientConf))
    (outcome : ClientId → Except Err Handle)
    (primaryStart : Except Err Unit) : RunResult :=
  match primaryStart with
  | Except.error e => ⟨[], [], emptyState, some e⟩
  | Except.ok _ =>
    let r := initialize_clients config outcome emptyState
    ⟨Event.primaryStarted :: r.events, r.snapshots, r.final, r.err⟩

/-- Embedding of the module-level primary configuration check (app.py
lines 48 to 50) followed by the initialization phase: CLIENTS_CONFIG.get(0)
is evaluated before any client object is built or started, and a missing
entry raises RuntimeError immediately, leaving both shared maps empty. -/
def startup_run (config : List (ClientId × ClientConf))
    (outcome : ClientId → Except Err Handle)
    (primaryStart : Except Err Unit) : RunResult :=
  match dictGet config 0 with
  | none => ⟨[], [], emptyState, some Err.runtimeError⟩
  | some _ => init_run config outcome primaryStart

/-- Embedding of the for loop of stop_clients (app.py lines 150 to 157):
each pool entry other than identifier 0 gets one awaited stop, with the
await wrapped in try/except, so a failure is logged and reported through
send_error and the loop continues with the next entry.  The parameter
sOut models the outcome of awaiting client.stop() for each identifier. -/
def stopLoop (sOut : ClientId → Except Err Unit) :
    List (ClientId × Handle) → List Event
  | [] => []
  | (cid, _) :: rest =>
    if cid ≠ 0 then
      (Event.stopIssued cid :: Event.stopSettled cid ::
        (match sOut cid with
         | Except.ok _ => []
         | Except.error _ => [Event.errorSent])) ++ stopLoop sOut rest
    else stopLoop sOut rest

/-- Embedding of stop_clients (app.py lines 145 to 157).  Modelled from the
spec for the two collaborators missing from src: send_info (notification
collaborator, best-effort, failures logged and never propagated) and
shutdowndb / close_connections (idempotent storage close), both modelled
as non-raising.  The primary stop, await bot.stop() on line 149, is NOT
wrapped in try/except: the parameter primaryStop models its outcome, and
on failure the exception propagates out of stop_clients at once, so the
secondary loop never runs. -/
def stop_clients (pool : List (ClientId × Handle))
    (primaryStop : Except Err Unit) (sOut : ClientId → Except Err Unit) :
    List Event × Option Err :=
  match primaryStop with
  | Except.error e =>
    ([Event.infoSent, Event.storageClosed, Event.primaryStopIssued], some e)
  | Except.ok _ =>
    ([Event.infoSent, Event.storageClosed, Event.primaryStopIssued,
      Event.primaryStopSettled] ++ stopLoop sOut pool, none)

/-- Trace of the body of signal_handler together with its inner shutdown
coroutine (app.py lines 160 to 168), as it WOULD execute if the handler
were ever entered: log the signal, schedule shutdown(), which sends the
signal notification, runs stop_clients and stops the loop (loop.stop() is
reached only when stop_clients does not raise).  This body is dead code:
see signal_delivery. -/
def signal_handler_body (pool : List (ClientId × Handle))
    (primaryStop : Except Err Unit) (sOut : ClientId → Except Err Unit) :
    List Event :=
  Event.infoSent :: (stop_clients pool primaryStop sOut).1 ++
    (match (stop_clients pool primaryStop sOut).2 with
     | none => [Event.loopStopped]
     | some _ => [])

/-- Embedding of one OS signal delivery to the registered handler (app.py
lines 160 and 173 to 174).  The signal module invokes its handler with two
arguments (signum, frame), but signal_handler is defined with a single
parameter, so the invocation itself raises TypeError in the main thread
before the handler body runs: no log, no notification, and in particular
loop.create_task(shutdown()) never executes, so a signal never schedules
any shutdown task.  The components are the tasks scheduled by the
delivery, always none, and the exception raised into the main thread. -/
def signal_delivery : List (List Event) × Option Err :=
  ([], some Err.typeError)

/-- Embedding of the shutdown phase of the main driver (app.py lines 171
to 183) under signal triggers.  The first delivered signal raises
TypeError (see signal_delivery) inside loop.run_until_complete(init());
the except Exception clause logs it, and the finally block then runs
stop_clients once and calls loop.stop().  A second signal in rapid
succession raises TypeError in the main thread again, landing at the next
bytecode boundary of that cleanup run: secondSignalAt = some k means it
lands after k events of stop_clients have executed, aborting the
remaining steps and the loop.stop() call; none means no further signal
arrives and the single cleanup run proceeds as stop_clients determines. -/
def main_run_signals (pool : List (ClientId × Handle))
    (primaryStop : Except Err Unit) (sOut : ClientId → Except Err Unit)
    (secondSignalAt : Option Nat) : List Event × Option Err :=
  match secondSignalAt with
  | none =>
    let r := stop_clients pool primaryStop sOut
    (r.1 ++ (match r.2 with
      | none => [Event.loopStopped]
      | some _ => []), r.2)
  | some k =>
    ((stop_clients pool primaryStop sOut).1.take k, some Err.typeError)

/-- Trace of the body of handle_cache_crash (app.py lines 138 to 142): it
logs the failure cause and sends exactly one error notification.  The
send_error collaborator is modelled from the spec as non-raising. -/
def handle_cache_crash (e : Err) : List Event :=
  match e with
  | _ => [Event.logError, Event.errorSent]

/-- Model of the done-callback installed on the cache task (app.py lines
122 to 128).  On a failed task the lambda calls the async function
handle_cache_crash, which in Python merely constructs a coroutine object;
the callback returns that object and nobody ever awaits or schedules it.
The first component is the constructed but never-scheduled coroutine,
represented by the trace its body would produce if it ran; the second
component is the list of events that actually execute in the callback. -/
def cache_done_callback (outcome : Except Err Unit) :
    Option (List Event) × List Event :=
  match outcome with
  | Except.ok _ => (none, [])
  | Except.error e => (some (handle_cache_crash e), [])

/-- An event produced by a secondary stop attempt. -/
def isSecondaryStopEvent : Event → Bool
  | Event.stopIssued _ => true
  | Event.stopSettled _ => true
  | _ => false

/-- The fan-out discipline claimed for secondary stops: every stop is
issued before any of them settles. -/
def stopsFanOut (tr : List Event) (ids : List ClientId) : Prop :=
  ∀ i ∈ ids, ∀ j ∈ ids,
    idxOf tr (Event.stopIssued i) < idxOf tr (Event.stopSettled j)

instance stopsFanOutDec (tr : List Event) (ids : List ClientId) :
    Decidable (stopsFanOut tr ids) :=
  inferInstanceAs (Decidable (∀ i ∈ ids, ∀ j ∈ ids,
    idxOf tr (Event.stopIssued i) < idxOf tr (Event.stopSettled j)))

/-- Outcome oracle where every secondary start succeeds. -/
def outAll : ClientId → Except Err Handle := fun i => Except.ok (10 + i)

/-- Outcome oracle of the spec scenario: client 1 starts, client 2 fails. -/
def outMixed : ClientId → Except Err Handle := fun i =>
  if i = 1 then Except.ok 11 else Except.error Err.clientStartError

/-- Secondary stop oracle where the stop of client 1 raises and every
other stop succeeds. -/
def sOutFail1 : ClientId → Except Err Unit := fun i =>
  if i = 1 then Except.error Err.clientStopError else Except.ok ()

/-- The keys of a dict after assignment: unchanged when the key was already
present, the key appended otherwise. -/
theorem dictKeys_dictSet {α : Type} (d : List (ClientId × α)) (k : ClientId)
    (v : α) :
    dictKeys (dictSet d k v) =
      if k ∈ dictKeys d then dictKeys d else dictKeys d ++ [k] := by
  induction d with
  | nil => simp [dictSet, dictKeys]
  | cons p rest ih =>
    obtain ⟨k', v'⟩ := p
    by_cases h : k' = k
    · subst h
      simp [dictSet, dictKeys]
    · have hk : k ≠ k' := Ne.symm h
      simp only [dictSet, if_neg h, dictKeys, List.map_cons] at *
      rw [ih]
      by_cases hm : k ∈ List.map Prod.fst rest
      · simp [List.mem_cons, hm, hk]
      · simp [List.mem_cons, hm, hk]

/-- Lookup of the assigned key after a dict assignment. -/
theorem dictGet_dictSet_self {α : Type} (d : List (ClientId × α))
    (k : ClientId) (v : α) : dictGet (dictSet d k v) k = some v := by
  induction d with
  | nil => simp [dictSet, dictGet]
  | cons p rest ih =>
    obtain ⟨k', v'⟩ := p
    by_cases h : k' = k
    · subst h; simp [dictSet, dictGet]
    · simp [dictSet, dictGet, h, ih]

/-- Lookup of any other key is unchanged by a dict assignment. -/
theorem dictGet_dictSet_ne {α : Type} (d : List (ClientId × α))
    {k k' : ClientId} (h : k' ≠ k) (v : α) :
    dictGet (dictSet d k v) k' = dictGet d k' := by
  have hk : k ≠ k' := Ne.symm h
  induction d with
  | nil => simp [dictSet, dictGet, hk]
  | cons p rest ih =>
    obtain ⟨k₀, v₀⟩ := p
    by_cases h₀ : k₀ = k
    · subst h₀
      simp [dictSet, dictGet, hk]
    · simp [dictSet, dictGet, h₀, ih]

theorem countE_nil (e : Event) : countE [] e = 0 := rfl

theorem countE_cons (a : Event) (tr : List Event) (e : Event) :
    countE (a :: tr) e = countE tr e + (if a = e then 1 else 0) := by
  by_cases h : a = e <;> simp [countE, List.filter_cons, h]

theorem countE_append (tr₁ tr₂ : List Event) (e : Event) :
    countE (tr₁ ++ tr₂) e = countE tr₁ e + countE tr₂ e := by
  simp [countE, List.filter_append]

/-- The registry returned by start_client, written as a case split on the
outcome of the awaited start. -/
theorem start_client_fst (cid : ClientId) (out : Except Err Handle)
    (wl : List (ClientId × Nat)) :
    (start_client cid out wl).1 =
      match out with
      | Except.ok _ => dictSet wl cid 0
      | Except.error _ => wl := by
  cases out <;> rfl

/-- The value returned by start_client, written as a case split on the
outcome of the awaited start. -/
theorem start_client_snd (cid : ClientId) (out : Except Err Handle)
    (wl : List (ClientId × Nat)) :
    (start_client cid out wl).2 =
      match out with
      | Except.ok h => some (cid, h)
      | Except.error _ => none := by
  cases out <;> rfl

/-- C5: for every secondary client identifier and configuration,
start_client never raises past its own boundary: on any failure of the
awaited client start it returns None instead of propagating (its result
type in the model is exception-free because the except clause catches
every Exception), and on success it returns the (id, handle) pair. -/
theorem C5_start_client_boundary (cid : ClientId) (out : Except Err Handle)
    (wl : List (ClientId × Nat)) :
    (∀ e, out = Except.error e → (start_client cid out wl).2 = none) ∧
    (∀ h, out = Except.ok h → (start_client cid out wl).2 = some (cid, h)) := by
  constructor
  · intro e he; subst he; rfl
  · intro h hh; subst hh; rfl

theorem C5_witness :
    (start_client 5 (Except.error Err.clientStartError) [(0, 0)]).2 = none ∧
    (start_client 5 (Except.ok 77) [(0, 0)]).2 = some (5, 77) :=
  ⟨(C5_start_client_boundary 5 (Except.error Err.clientStartError)
      [(0, 0)]).1 Err.clientStartError rfl,
   (C5_start_client_boundary 5 (Except.ok 77) [(0, 0)]).2 77 rfl⟩

/-- C10: start_client mutates the Workload Registry only at its own key
and only on success: a failed start leaves the registry untouched, and a
successful start sets exactly the entry of its own identifier to 0,
leaving every other key unchanged. -/
theorem C10_start_client_frame (cid : ClientId) (out : Except Err Handle)
    (wl : List (ClientId × Nat)) :
    (∀ e, out = Except.error e → (start_client cid out wl).1 = wl) ∧
    (∀ h, out = Except.ok h →
      dictGet (start_client cid out wl).1 cid = some 0 ∧
      ∀ k, k ≠ cid → dictGet (start_client cid out wl).1 k = dictGet wl k) := by
  constructor
  · intro e he; subst he; rfl
  · intro h hh; subst hh
    refine ⟨dictGet_dictSet_self wl cid 0, ?_⟩
    intro k hk
    exact dictGet_dictSet_ne wl hk 0

theorem C10_witness :
    (start_client 5 (Except.error Err.clientStartError) [(0, 0)]).1 = [(0, 0)] ∧
    dictGet (start_client 5 (Except.ok 77) [(0, 0)]).1 5 = some 0 ∧
    dictGet (start_client 5 (Except.ok 77) [(0, 0)]).1 0 = dictGet [(0, 0)] 0 :=
  ⟨(C10_start_client_frame 5 (Except.error Err.clientStartError)
      [(0, 0)]).1 Err.clientStartError rfl,
   ((C10_start_client_frame 5 (Except.ok 77) [(0, 0)]).2 77 rfl).1,
   ((C10_start_client_frame 5 (Except.ok 77) [(0, 0)]).2 77 rfl).2 0
     (by decide)⟩

/-- C1: evaluation of initialize_clients at the failing input of the spec
scenario, configuration with identifiers 0, 1, 2 where the start of client
1 succeeds and the start of client 2 fails.  Contrary to the comment on
app.py line 102, the dict comprehension on line 103 unpacks each gathered
result before testing it, so the None returned for client 2 raises
TypeError: initialize_clients itself raises instead of degrading, the pool
keeps only the primary entry, and the registry is left with the orphaned
counter written for client 1. -/
theorem C1_code_evaluation :
    (initialize_clients [(0, 0), (1, 0), (2, 0)] outMixed emptyState).err =
      some Err.typeError ∧
    dictKeys (initialize_clients [(0, 0), (1, 0), (2, 0)] outMixed
      emptyState).final.multi_clients = [0] ∧
    dictKeys (initialize_clients [(0, 0), (1, 0), (2, 0)] outMixed
      emptyState).final.work_loads = [0, 1] := by
  decide

/-- C4: evaluation of the cache-task completion observer at a failing
task.  The done-callback calls the async function handle_cache_crash,
which only constructs a coroutine that nobody awaits or schedules, so no
event of its body ever executes: no crash log and no error notification,
although the body, had it run, would have sent exactly one. -/
theorem C4_code_evaluation :
    (cache_done_callback (Except.error Err.cacheError)).2 = [] ∧
    countE (handle_cache_crash Err.cacheError) Event.errorSent = 1 ∧
    countE (handle_cache_crash Err.cacheError) Event.logError = 1 := by
  decide

/-- C6: if the configuration mapping does not contain identifier 0, the
module-level check raises RuntimeError before any client is built or
started: the run produces no events, and both the pool and the Workload
Registry are left empty. -/
theorem C6_missing_primary (config : List (ClientId × ClientConf))
    (outcome : ClientId → Except Err Handle) (p : Except Err Unit)
    (h : dictGet config 0 = none) :
    (startup_run config outcome p).err = some Err.runtimeError ∧
    (startup_run config outcome p).events = [] ∧
    (startup_run config outcome p).final.multi_clients = [] ∧
    (startup_run config outcome p).final.work_loads = [] := by
  simp [startup_run, h, emptyState]

theorem C6_witness :
    dictGet ([(1, 0)] : List (ClientId × ClientConf)) 0 = none ∧
    ((startup_run [(1, 0)] outAll (Except.ok ())).err =
        some Err.runtimeError ∧
      (startup_run [(1, 0)] outAll (Except.ok ())).events = [] ∧
      (startup_run [(1, 0)] outAll (Except.ok ())).final.multi_clients = [] ∧
      (startup_run [(1, 0)] outAll (Except.ok ())).final.work_loads = []) :=
  ⟨by decide, C6_missing_primary [(1, 0)] outAll (Except.ok ()) (by decide)⟩

/-- C3 counterexample: with pool entries 0 and 1 and a primary stop that
raises, stop_clients propagates the exception at once (app.py line 149 is
not wrapped in try/except), so the secondary client 1 receives zero stop
attempts, not one. -/
theorem C3_counterexample :
    countE (stop_clients [(0, 100), (1, 11)]
      (Except.error Err.clientStopError) (fun _ => Except.ok ())).1
      (Event.stopIssued 1) = 0 ∧
    (stop_clients [(0, 100), (1, 11)]
      (Except.error Err.clientStopError) (fun _ => Except.ok ())).2 =
      some Err.clientStopError := by
  decide

/-- C9 counterexample: with secondaries 1 and 2 and every stop succeeding,
the stop of client 1 settles strictly before the stop of client 2 is even
issued: the secondary stops are sequential, not fan-out. -/
theorem C9_counterexample :
    ¬ stopsFanOut (stop_clients [(0, 100), (1, 11), (2, 12)]
      (Except.ok ()) (fun _ => Except.ok ())).1 [1, 2] := by
  decide

/-- C7 counterexample: during initialization of a configuration with one
secondary whose start succeeds, the state observable right after that
start task settles has the workload counter for client 1 but no pool
record for it: the key sets of the Workload Registry and the pool differ
at an observable point. -/
theorem C7_counterexample :
    ∃ s ∈ (initialize_clients [(0, 0), (1, 0)] outAll emptyState).snapshots,
      dictKeys s.work_loads ≠ dictKeys s.multi_clients := by
  decide

/-- The events of the gathered start tasks: one settle per configured
secondary, in task order, whether or not its start succeeded. -/
theorem gatherStarts_events (outcome : ClientId → Except Err Handle)
    (ids : List ClientId) :
    ∀ wl, (gatherStarts outcome ids wl).events =
      ids.map Event.secondarySettled := by
  induction ids with
  | nil => intro wl; rfl
  | cons i rest ih => intro wl; simp [gatherStarts, ih]

/-- The gathered results in task order: the pair on success, None on
failure, independent of the registry being threaded through. -/
theorem gatherStarts_results (outcome : ClientId → Except Err Handle)
    (ids : List ClientId) :
    ∀ wl, (gatherStarts outcome ids wl).results =
      ids.map (fun i =>
        match outcome i with
        | Except.ok hh => some (i, hh)
        | Except.error _ => none) := by
  induction ids with
  | nil => intro wl; rfl
  | cons i rest ih => intro wl; simp [gatherStarts, ih, start_client_snd]

/-- The registry after all start tasks settled: a zero counter written for
every identifier whose start succeeded, in task order. -/
theorem gatherStarts_wl (outcome : ClientId → Except Err Handle)
    (ids : List ClientId) :
    ∀ wl, (gatherStarts outcome ids wl).wl =
      ids.foldl (fun acc i =>
        match outcome i with
        | Except.ok _ => dictSet acc i 0
        | Except.error _ => acc) wl := by
  induction ids with
  | nil => intro wl; rfl
  | cons i rest ih => intro wl; simp [gatherStarts, ih, start_client_fst]

/-- When the dict comprehension does not raise, it returns exactly the
present results in order. -/
theorem filterClients_ok {l : List (Option (ClientId × Handle))}
    {c : List (ClientId × Handle)} (h : filterClients l = Except.ok c) :
    c = l.filterMap id := by
  induction l generalizing c with
  | nil =>
    simp [filterClients] at h
    simp [← h]
  | cons a rest ih =>
    cases a with
    | none => simp [filterClients] at h
    | some p =>
      simp only [filterClients] at h
      cases hr : filterClients rest with
      | error e =>
        rw [hr] at h
        simp at h
      | ok l' =>
        rw [hr] at h
        simp only [Except.ok.injEq] at h
        subst h
        simp [List.filterMap_cons, ih hr]

/-- Parallel-keys lemma: writing zero counters for the successful
identifiers into one dict and merging the successful (id, handle) pairs
into another preserves equality of key lists. -/
theorem keys_par (outcome : ClientId → Except Err Handle)
    (ids : List ClientId) :
    ∀ (d₁ : List (ClientId × Nat)) (d₂ : List (ClientId × Handle)),
      dictKeys d₁ = dictKeys d₂ →
      dictKeys (ids.foldl (fun acc i =>
        match outcome i with
        | Except.ok _ => dictSet acc i 0
        | Except.error _ => acc) d₁) =
      dictKeys (dictUpdate d₂ (ids.filterMap (fun i =>
        match outcome i with
        | Except.ok hh => some (i, hh)
        | Except.error _ => none))) := by
  induction ids with
  | nil =>
    intro d₁ d₂ h
    simpa [dictUpdate] using h
  | cons i rest ih =>
    intro d₁ d₂ h
    cases ho : outcome i with
    | ok hh =>
      simp only [List.foldl_cons, List.filterMap_cons, ho]
      have hkeys : dictKeys (dictSet d₁ i 0) = dictKeys (dictSet d₂ i hh) := by
        rw [dictKeys_dictSet, dictKeys_dictSet, h]
      exact ih (dictSet d₁ i 0) (dictSet d₂ i hh) hkeys
    | error e =>
      simp only [List.foldl_cons, List.filterMap_cons, ho]
      exact ih d₁ d₂ h

/-- The event trace of init_secondaries: all secondary start tasks are
created (fan-out) before any of them settles, and each settles exactly
once (fan-in), whether the dict comprehension raises afterwards or not. -/
theorem init_secondaries_events (outcome : ClientId → Except Err Handle)
    (st1 : CoreState) (ids : List ClientId) :
    (init_secondaries outcome st1 ids).events =
      ids.map Event.secondaryIssued ++ ids.map Event.secondarySettled := by
  cases ids with
  | nil => rfl
  | cons i rest =>
    simp only [init_secondaries]
    split <;> simp [gatherStarts_events]

/-- The event trace of initialize_clients, stated over the configuration. -/
theorem initialize_clients_events (config : List (ClientId × ClientConf))
    (outcome : ClientId → Except Err Handle) (st : CoreState) :
    (initialize_clients config outcome st).events =
      (secIds config).map Event.secondaryIssued ++
        (secIds config).map Event.secondarySettled :=
  init_secondaries_events outcome
    ⟨dictSet st.multi_clients 0 botHandle, dictSet st.work_loads 0 0⟩
    (secIds config)

/-- C7 amended: the pool and Workload Registry key sets coincide at
quiescent points: whenever initialize_clients returns without raising,
the final registry and pool have identical key lists.  (The unamended
claim fails at the observable points inside the secondary fan-in, where a
started client already has a counter but its pool record is only merged
after all tasks settle; see the counterexample.) -/
theorem init_secondaries_keys (outcome : ClientId → Except Err Handle)
    (st1 : CoreState) (ids : List ClientId)
    (hkeys : dictKeys st1.work_loads = dictKeys st1.multi_clients)
    (h : (init_secondaries outcome st1 ids).err = none) :
    dictKeys (init_secondaries outcome st1 ids).final.work_loads =
      dictKeys (init_secondaries outcome st1 ids).final.multi_clients := by
  cases ids with
  | nil => simpa [init_secondaries] using hkeys
  | cons i rest =>
    simp only [init_secondaries] at h ⊢
    split at h
    next e heq =>
      simp at h
    next clients heq =>
      simp only [heq]
      have hc : clients = (gatherStarts outcome (i :: rest)
          st1.work_loads).results.filterMap id := filterClients_ok heq
      simp only [hc, gatherStarts_results, gatherStarts_wl,
        List.filterMap_map, Function.id_comp]
      exact keys_par outcome (i :: rest) st1.work_loads st1.multi_clients
        hkeys
  -- the split cases above correspond to the error and ok branches of the
  -- dict comprehension; the error branch contradicts h

theorem C7_amended_quiescent (config : List (ClientId × ClientConf))
    (outcome : ClientId → Except Err Handle)
    (h : (initialize_clients config outcome emptyState).err = none) :
    dictKeys (initialize_clients config outcome
        emptyState).final.work_loads =
      dictKeys (initialize_clients config outcome
        emptyState).final.multi_clients :=
  init_secondaries_keys outcome
    ⟨dictSet emptyState.multi_clients 0 botHandle,
      dictSet emptyState.work_loads 0 0⟩
    (secIds config) rfl h

theorem C7_witness :
    (initialize_clients [(0, 0), (1, 0)] outAll emptyState).err = none ∧
    dictKeys (initialize_clients [(0, 0), (1, 0)] outAll
        emptyState).final.work_loads =
      dictKeys (initialize_clients [(0, 0), (1, 0)] outAll
        emptyState).final.multi_clients :=
  ⟨by decide, C7_amended_quiescent [(0, 0), (1, 0)] outAll (by decide)⟩

/-- C8: in the client-initialization phase, the primary start settles
first, then every secondary start task is created before any of them is
awaited (true fan-out), and every configured secondary has settled by the
end of the phase, without short-circuiting on failures. -/
theorem C8_init_ordering (config : List (ClientId × ClientConf))
    (outcome : ClientId → Except Err Handle) (p : Except Err Unit)
    (hp : p = Except.ok ()) :
    (init_run config outcome p).events =
      Event.primaryStarted :: ((secIds config).map Event.secondaryIssued ++
        (secIds config).map Event.secondarySettled) ∧
    ∀ i ∈ secIds config,
      Event.secondarySettled i ∈ (init_run config outcome p).events := by
  subst hp
  have hev := initialize_clients_events config outcome emptyState
  constructor
  · simp [init_run, hev]
  · intro i hi
    simp only [init_run, hev, List.mem_cons, List.mem_append, List.mem_map]
    exact Or.inr (Or.inr ⟨i, hi, rfl⟩)

theorem C8_witness :
    ((Except.ok () : Except Err Unit) = Except.ok ()) ∧
    Event.secondarySettled 2 ∈
      (init_run [(0, 0), (1, 0), (2, 0)] outMixed (Except.ok ())).events :=
  ⟨rfl, (C8_init_ordering [(0, 0), (1, 0), (2, 0)] outMixed
    (Except.ok ()) rfl).2 2 (by decide)⟩

/-- C2: evaluation at the failing input: two signals in rapid succession,
pool with primary 0 and secondary 1, every stop able to succeed, the
second signal landing right after the cleanup notification.  The signal
module calls the one-parameter signal_handler with (signum, frame), so
each delivery raises TypeError and schedules nothing; the coordinator
sequence runs only through the unconditional finally block, and the
second signal aborts that single run after its first event: the sequence
completes zero full runs (storage never closed, no client stopped)
instead of exactly one, although the dead handler body would have run the
full sequence.  With a single signal, the finally block is the only thing
that runs the sequence, exactly once. -/
theorem C2_code_evaluation :
    signal_delivery.1 = [] ∧
    signal_delivery.2 = some Err.typeError ∧
    (main_run_signals [(0, 100), (1, 11)] (Except.ok ())
      (fun _ => Except.ok ()) (some 1)).1 = [Event.infoSent] ∧
    countE (main_run_signals [(0, 100), (1, 11)] (Except.ok ())
      (fun _ => Except.ok ()) (some 1)).1 Event.storageClosed = 0 ∧
    countE (main_run_signals [(0, 100), (1, 11)] (Except.ok ())
      (fun _ => Except.ok ()) (some 1)).1 (Event.stopIssued 1) = 0 ∧
    countE (signal_handler_body [(0, 100), (1, 11)] (Except.ok ())
      (fun _ => Except.ok ())) Event.storageClosed = 1 ∧
    countE (main_run_signals [(0, 100), (1, 11)] (Except.ok ())
      (fun _ => Except.ok ()) none).1 Event.storageClosed = 1 := by
  decide

/-- An identifier absent from the pool gets no stop attempt. -/
theorem countE_stopLoop_not_mem (sOut : ClientId → Except Err Unit)
    (pool : List (ClientId × Handle)) (i : ClientId)
    (h : i ∉ dictKeys pool) :
    countE (stopLoop sOut pool) (Event.stopIssued i) = 0 := by
  induction pool with
  | nil => rfl
  | cons p rest ih =>
    obtain ⟨cid, hd⟩ := p
    rw [show dictKeys ((cid, hd) :: rest) = cid :: dictKeys rest from rfl,
      List.mem_cons] at h
    push_neg at h
    obtain ⟨hi, hrest⟩ := h
    have hi' : cid ≠ i := Ne.symm hi
    by_cases hc : cid ≠ 0
    · cases hs : sOut cid <;>
        simp [stopLoop, hc, hs, countE_append, countE_cons, ih hrest, hi']
    · simp [stopLoop, hc, ih hrest]

/-- With distinct pool keys, each secondary identifier in the pool gets
exactly one stop attempt in the loop, however the individual stops end. -/
theorem countE_stopLoop_mem (sOut : ClientId → Except Err Unit)
    (pool : List (ClientId × Handle)) (i : ClientId)
    (hnd : (dictKeys pool).Nodup) (hm : i ∈ dictKeys pool) (h0 : i ≠ 0) :
    countE (stopLoop sOut pool) (Event.stopIssued i) = 1 := by
  induction pool with
  | nil => simp [dictKeys] at hm
  | cons p rest ih =>
    obtain ⟨cid, hd⟩ := p
    have hk : dictKeys ((cid, hd) :: rest) = cid :: dictKeys rest := rfl
    rw [hk, List.nodup_cons] at hnd
    rw [hk, List.mem_cons] at hm
    rcases hm with hm | hm
    · subst hm
      have hc : i ≠ 0 := h0
      have hz : countE (stopLoop sOut rest) (Event.stopIssued i) = 0 :=
        countE_stopLoop_not_mem sOut rest i hnd.1
      cases hs : sOut i <;>
        simp [stopLoop, hc, hs, countE_append, countE_cons, hz]
    · have hi : cid ≠ i := by
        intro hh
        subst hh
        exact hnd.1 hm
      have h1 : countE (stopLoop sOut rest) (Event.stopIssued i) = 1 :=
        ih hnd.2 hm
      by_cases hc : cid ≠ 0
      · cases hs : sOut cid <;>
          simp [stopLoop, hc, hs, countE_append, countE_cons, h1, hi]
      · simp [stopLoop, hc, h1]

/-- C3 amended: the per-secondary stops are individually best-effort: when
the notification, storage close and primary stop complete without raising,
every secondary in the pool receives exactly one stop attempt, no matter
which secondary stops fail, and stop_clients itself does not raise.  (The
unamended claim fails because the primary stop on app.py line 149 is not
wrapped in try/except: if it raises, no secondary stop is attempted at
all; see the counterexample.) -/
theorem C3_amended_secondary_isolation (pool : List (ClientId × Handle))
    (sOut : ClientId → Except Err Unit)
    (hnd : (dictKeys pool).Nodup) :
    (stop_clients pool (Except.ok ()) sOut).2 = none ∧
    ∀ i ∈ dictKeys pool, i ≠ 0 →
      countE (stop_clients pool (Except.ok ()) sOut).1
        (Event.stopIssued i) = 1 := by
  constructor
  · rfl
  · intro i hm h0
    have hpre : countE [Event.infoSent, Event.storageClosed,
        Event.primaryStopIssued, Event.primaryStopSettled]
        (Event.stopIssued i) = 0 := by
      simp [countE, List.filter]
    calc countE (stop_clients pool (Except.ok ()) sOut).1
          (Event.stopIssued i)
        = countE [Event.infoSent, Event.storageClosed,
            Event.primaryStopIssued, Event.primaryStopSettled]
            (Event.stopIssued i) +
          countE (stopLoop sOut pool) (Event.stopIssued i) :=
          countE_append _ _ _
      _ = 1 := by
          rw [hpre, countE_stopLoop_mem sOut pool i hnd hm h0]

theorem C3_witness :
    (dictKeys [(0, 100), (1, 11), (2, 12)]).Nodup ∧
    countE (stop_clients [(0, 100), (1, 11), (2, 12)] (Except.ok ())
      sOutFail1).1 (Event.stopIssued 1) = 1 ∧
    countE (stop_clients [(0, 100), (1, 11), (2, 12)] (Except.ok ())
      sOutFail1).1 (Event.stopIssued 2) = 1 :=
  ⟨by decide,
   (C3_amended_secondary_isolation [(0, 100), (1, 11), (2, 12)] sOutFail1
     (by decide)).2 1 (by decide) (by decide),
   (C3_amended_secondary_isolation [(0, 100), (1, 11), (2, 12)] sOutFail1
     (by decide)).2 2 (by decide) (by decide)⟩

/-- The secondary stop events of the loop, in pool order: each identifier
is issued and then settled before the next one is issued. -/
theorem stopLoop_filter (sOut : ClientId → Except Err Unit)
    (pool : List (ClientId × Handle)) :
    (stopLoop sOut pool).filter isSecondaryStopEvent =
      List.flatten (((dictKeys pool).filter (fun i => decide (i ≠ 0))).map
        (fun i => [Event.stopIssued i, Event.stopSettled i])) := by
  induction pool with
  | nil => rfl
  | cons p rest ih =>
    obtain ⟨cid, hd⟩ := p
    by_cases hc : cid ≠ 0
    · cases hs : sOut cid <;>
        simp [stopLoop, hc, hs, dictKeys, List.filter_cons,
          List.filter_append, isSecondaryStopEvent, ih]
    · have hc0 : cid = 0 := not_not.mp hc
      simp [stopLoop, hc0, dictKeys, List.filter_cons, ih]

/-- C9 amended: when the primary stop succeeds, it is attempted and
settled before any secondary stop begins, and the secondary stops then
proceed SEQUENTIALLY in pool order, each settled before the next is
issued, with every secondary settled before the coordinator returns.
(The unamended fan-out claim fails; see the counterexample.) -/
theorem C9_amended_sequential (pool : List (ClientId × Handle))
    (sOut : ClientId → Except Err Unit) :
    (stop_clients pool (Except.ok ()) sOut).2 = none ∧
    (∃ rest, (stop_clients pool (Except.ok ()) sOut).1 =
      [Event.infoSent, Event.storageClosed, Event.primaryStopIssued,
        Event.primaryStopSettled] ++ rest) ∧
    ((stop_clients pool (Except.ok ()) sOut).1.filter
        isSecondaryStopEvent) =
      List.flatten (((dictKeys pool).filter (fun i => decide (i ≠ 0))).map
        (fun i => [Event.stopIssued i, Event.stopSettled i])) := by
  refine ⟨rfl, ⟨stopLoop sOut pool, rfl⟩, ?_⟩
  show ([Event.infoSent, Event.storageClosed, Event.primaryStopIssued,
      Event.primaryStopSettled] ++ stopLoop sOut pool).filter
      isSecondaryStopEvent = _
  rw [List.filter_append]
  simp [isSecondaryStopEvent, stopLoop_filter]

/-- The secondary stop loop never closes storage. -/
theorem countE_stopLoop_storage (sOut : ClientId → Except Err Unit)
    (pool : List (ClientId × Handle)) :
    countE (stopLoop sOut pool) Event.storageClosed = 0 := by
  induction pool with
  | nil => rfl
  | cons p rest ih =>
    obtain ⟨cid, hd⟩ := p
    by_cases hc : cid ≠ 0
    · cases hs : sOut cid <;>
        simp [stopLoop, hc, hs, countE_append, countE_cons, ih]
    · simp [stopLoop, hc, ih]

/-- Every run of stop_clients closes storage exactly once, whether or not
the primary stop raises. -/
theorem countE_stop_clients_storage (pool : List (ClientId × Handle))
    (pStop : Except Err Unit) (sOut : ClientId → Except Err Unit) :
    countE (stop_clients pool pStop sOut).1 Event.storageClosed = 1 := by
  cases pStop with
  | error e => rfl
  | ok u =>
    have hpre : countE [Event.infoSent, Event.storageClosed,
        Event.primaryStopIssued, Event.primaryStopSettled]
        Event.storageClosed = 1 := rfl
    calc countE (stop_clients pool (Except.ok u) sOut).1 Event.storageClosed
        = countE [Event.infoSent, Event.storageClosed,
            Event.primaryStopIssued, Event.primaryStopSettled]
            Event.storageClosed +
          countE (stopLoop sOut pool) Event.storageClosed :=
          countE_append _ _ _
      _ = 1 := by rw [hpre, countE_stopLoop_storage]

end AppModel
